import Mathlib

/-!
Shallow embedding of the lifecycle orchestration of `sample_app_go_gin`
(files `main.go` and `otel.go`, plus the GORM health-check variant).

Go error values are modelled two ways:
  - `GErr := Option Nat` for code that returns a single error value
    (`nil` is `none`);
  - `JErr := List Nat` for code that aggregates errors with `errors.Join`
    (`nil` is `[]`; `errors.Join` of two values is list append, since
    `errors.Join` drops nil arguments and keeps the rest in order).
-/

namespace SampleAppGin

abbrev GErr := Option Nat

abbrev JErr := List Nat

/-- The closable resource handles held in package-level variables of
`main.go`: `mysqldb`, `rdb`, `mdb`, `ccn`, `kw`, `kr`. -/
inductive Handle
  | mysql
  | redis
  | mongo
  | clickhouse
  | kafkaWriter
  | kafkaReader
deriving DecidableEq, Repr

/-- The `defer` statements registered by `run` in `main.go`, in source
order: close `mysqldb`; `cancel` of the mongo timeout context; disconnect
`mdb`; close `kw` and `kr`; `stop` of the signal context; `cancel` of the
shutdown context (interrupt branch only). -/
inductive DeferAct
  | closeMysql
  | cancelMongoCtx
  | disconnectMongo
  | closeKafka
  | stopSignal
  | cancelShutdownCtx
deriving DecidableEq, Repr

/-- Which branch of the final `select` in `run` fires: the listener
delivered error `e` on the `srvErr` channel, or the interrupt signal
context was cancelled. -/
inductive Winner
  | listener (e : GErr)
  | interrupt
deriving DecidableEq, Repr

/-- Outcomes of every fallible external call made by `run`, plus the
winner of the shutdown race. `none` means the Go call returned `nil`. -/
structure RunEnv where
  mysqlOpenErr : GErr
  mysqlPingErr : GErr
  mysqlCloseErr : GErr
  mongoConnectErr : GErr
  mongoPingErr : GErr
  mongoDisconnectErr : GErr
  chOpenErr : GErr
  chPingErr : GErr
  kwCloseErr : GErr
  krCloseErr : GErr
  winner : Winner
  srvShutdownErr : GErr
deriving Repr

/-- Observable state threaded through the embedding of `run`:
which handles are open (in opening order), the closes performed (in
execution order), every acquisition attempt, the registered defers
(most recent first, as Go runs them LIFO), the error values the source
discards with `_ =`, and whether `srv.Shutdown` was called. -/
structure RunState where
  openh : List Handle := []
  closedTrace : List Handle := []
  attempts : List Handle := []
  defers : List DeferAct := []
  discarded : List Nat := []
  srvShutdownCalled : Bool := false
  branchesRun : Nat := 0
deriving Repr

/-- Record an acquisition attempt on a handle. -/
def att (s : RunState) (h : Handle) : RunState :=
  { s with attempts := s.attempts ++ [h] }

/-- A connection/client for `h` is now live. -/
def openH (s : RunState) (h : Handle) : RunState :=
  { s with openh := s.openh ++ [h] }

/-- Register a `defer`; Go runs defers LIFO so the list is kept most
recent first. -/
def reg (s : RunState) (a : DeferAct) : RunState :=
  { s with defers := a :: s.defers }

/-- A close whose error the source discards (`_ = x.Close()`): the handle
stops being open, and the error value goes nowhere but is recorded in
`discarded` for observation. -/
def discardClose (s : RunState) (h : Handle) (e : GErr) : RunState :=
  { s with openh := s.openh.erase h,
           closedTrace := s.closedTrace ++ [h],
           discarded := s.discarded ++ e.toList }

/-- Effect of one registered defer of `run`. -/
def runDeferAct (env : RunEnv) (s : RunState) : DeferAct → RunState
  | .closeMysql => discardClose s .mysql env.mysqlCloseErr
  | .cancelMongoCtx => s
  | .disconnectMongo => discardClose s .mongo env.mongoDisconnectErr
  | .closeKafka =>
      discardClose (discardClose s .kafkaWriter env.kwCloseErr) .kafkaReader env.krCloseErr
  | .stopSignal => s
  | .cancelShutdownCtx => s

/-- Run all registered defers in LIFO order, as Go does on function exit. -/
def runDefers (env : RunEnv) (s : RunState) : RunState :=
  s.defers.foldl (runDeferAct env) { s with defers := [] }

/-- The value `run` produces: its returned error, the final state after
all defers have run, the defers that were registered at the moment `run`
started returning, the handles open at the moment shutdown was triggered
(empty when startup failed before the `select`), and whether the
shutdown race was reached at all. -/
structure RunResult where
  err : GErr
  final : RunState
  defersAtExit : List DeferAct
  openAtTrigger : List Handle
  triggered : Bool
deriving Repr

/-- Return from `run`: Go runs the registered defers, then the caller
sees `e`. -/
def exitRun (env : RunEnv) (s : RunState) (e : GErr) (triggered : Bool)
    (openAt : List Handle) : RunResult :=
  { err := e, final := runDefers env s, defersAtExit := s.defers,
    openAtTrigger := openAt, triggered := triggered }

/-- Embedding of `run` from `main.go`, step by step in source order:
wrap the HTTP client (no resource), open and ping MySQL then defer its
close, create the Redis client (no error path, no close anywhere),
connect and ping Mongo then defer its disconnect, open and ping
ClickHouse (no close anywhere), create the Kafka writer and reader and
defer their closes, start the listener goroutine, and `select` on the
listener error versus the interrupt context. -/
def run (env : RunEnv) : RunResult :=
  let s : RunState := {}
  let s := att s .mysql
  match env.mysqlOpenErr with
  | some e => exitRun env s (some e) false []
  | none =>
  let s := openH s .mysql
  match env.mysqlPingErr with
  | some e => exitRun env s (some e) false []
  | none =>
  let s := reg s .closeMysql
  let s := openH (att s .redis) .redis
  let s := reg s .cancelMongoCtx
  let s := att s .mongo
  match env.mongoConnectErr with
  | some e => exitRun env s (some e) false []
  | none =>
  let s := openH s .mongo
  match env.mongoPingErr with
  | some e => exitRun env s (some e) false []
  | none =>
  let s := reg s .disconnectMongo
  let s := att s .clickhouse
  match env.chOpenErr with
  | some e => exitRun env s (some e) false []
  | none =>
  let s := openH s .clickhouse
  match env.chPingErr with
  | some e => exitRun env s (some e) false []
  | none =>
  let s := openH (att s .kafkaWriter) .kafkaWriter
  let s := openH (att s .kafkaReader) .kafkaReader
  let s := reg s .closeKafka
  let s := reg s .stopSignal
  let openNow := s.openh
  match env.winner with
  | .listener e =>
      exitRun env { s with branchesRun := s.branchesRun + 1 } e true openNow
  | .interrupt =>
      let s := { s with branchesRun := s.branchesRun + 1 }
      let s := reg s .cancelShutdownCtx
      let s := { s with srvShutdownCalled := true }
      exitRun env s env.srvShutdownErr true openNow

/-- What `main` in `main.go` observably does: `tracer.Start()`, then
`run`; a non-nil error goes to `log.Fatalln`, which logs it and calls
`os.Exit(1)` (skipping the deferred `tracer.Stop`); otherwise the process
ends normally with the tracer stopped. -/
structure MainResult where
  exitCode : Nat
  logged : Option Nat
  tracerStopped : Bool
deriving DecidableEq, Repr

/-- Embedding of `main` from `main.go`. -/
def goMain (env : RunEnv) : MainResult :=
  match (run env).err with
  | some e => { exitCode := 1, logged := some e, tracerStopped := false }
  | none => { exitCode := 0, logged := none, tracerStopped := true }

/-! Embedding of `otel.go`. -/

/-- A cleanup registered in `shutdownFuncs`: an identifier for which
component it shuts down, and the error its invocation returns. -/
structure Cleanup where
  id : Nat
  err : JErr
deriving DecidableEq, Repr

/-- Identifier for `tracerProvider.Shutdown` in `shutdownFuncs`. -/
def tracerCleanupId : Nat := 0

/-- Identifier for `meterProvider.Shutdown` in `shutdownFuncs`. -/
def meterCleanupId : Nat := 1

/-- One call of the `shutdown` closure built in `setupOTelSDK`: it loops
over `shutdownFuncs`, joining the errors with `errors.Join`, then sets
`shutdownFuncs = nil` and returns the joined error. The result is the
joined error, the ids invoked in order, and the new `shutdownFuncs`
state. -/
def otelShutdownCall (fns : List Cleanup) : JErr × List Nat × List Cleanup :=
  (fns.foldl (fun acc c => acc ++ c.err) [], fns.map (fun c => c.id), [])

/-- The `handleErr` helper of `setupOTelSDK`: joins the incoming error
with the result of calling `shutdown` on the current `shutdownFuncs`. -/
def handleErr (fns : List Cleanup) (inErr : JErr) : JErr × List Nat × List Cleanup :=
  let r := otelShutdownCall fns
  (inErr ++ r.1, r.2.1, r.2.2)

/-- Which span/metric exporter was constructed: the pretty-printed
stdout exporter (`stdouttrace` / `stdoutmetric` with `WithPrettyPrint`)
or the OTLP HTTP exporter (`otlptracehttp` / `otlpmetrichttp`). -/
inductive ExporterKind
  | stdoutPretty
  | otlpHttp
deriving DecidableEq, Repr

/-- Configuration produced by `newTraceProvider`: which exporter it
built and that the exporter is wrapped in a batching span processor
(`trace.WithBatcher`). -/
structure TraceProviderCfg where
  exporter : ExporterKind
  batcher : Bool
deriving DecidableEq, Repr

/-- Configuration produced by `newMeterProvider`: which exporter it
built, that the exporter feeds a periodic reader
(`metric.NewPeriodicReader`), and the reader interval in seconds. -/
structure MeterProviderCfg where
  exporter : ExporterKind
  periodicReader : Bool
  intervalSeconds : Nat
deriving DecidableEq, Repr

/-- The OpenTelemetry SDK default periodic-reader interval, one minute
(the source comment on the debug branch notes the default is 1m). -/
def defaultMetricIntervalSeconds : Nat := 60

/-- Embedding of `newTraceProvider`: in debug mode
(`OTEL_LOG_LEVEL == "debug"`) build a pretty-printed stdout trace
exporter, otherwise an OTLP HTTP one; on constructor error return it;
otherwise wrap the exporter with `trace.WithBatcher`. `exporterErr` is
the outcome of the chosen constructor. -/
def newTraceProvider (debugMode : Bool) (exporterErr : JErr) :
    JErr × Option TraceProviderCfg :=
  let exp : ExporterKind := if debugMode then .stdoutPretty else .otlpHttp
  if exporterErr ≠ [] then (exporterErr, none)
  else ([], some { exporter := exp, batcher := true })

/-- Embedding of `newMeterProvider`: in debug mode build a
pretty-printed stdout metric exporter and add `metric.WithInterval(10s)`
to the periodic-reader options, otherwise an OTLP HTTP exporter with no
options (the reader keeps its 1m default); on constructor error return
it; otherwise feed the exporter to `metric.NewPeriodicReader`. -/
def newMeterProvider (debugMode : Bool) (exporterErr : JErr) :
    JErr × Option MeterProviderCfg :=
  let exp : ExporterKind := if debugMode then .stdoutPretty else .otlpHttp
  let interval : Nat := if debugMode then 10 else defaultMetricIntervalSeconds
  if exporterErr ≠ [] then (exporterErr, none)
  else ([], some { exporter := exp, periodicReader := true, intervalSeconds := interval })

/-- Outcomes of the fallible steps inside `setupOTelSDK`: the exporter
constructor errors inside `newTraceProvider` and `newMeterProvider`,
the errors of `host.Start` and `runtime.Start`, and the errors the two
registered provider `Shutdown` methods return when invoked. `debugMode`
is whether `OTEL_LOG_LEVEL` equals the string `debug`. -/
structure OtelEnv where
  debugMode : Bool
  traceExporterErr : JErr
  metricExporterErr : JErr
  hostErr : JErr
  rtErr : JErr
  tpShutdownErr : JErr
  mpShutdownErr : JErr
deriving Repr

/-- The process-wide telemetry globals `setupOTelSDK` mutates:
`otel.SetTextMapPropagator`, `otel.SetTracerProvider`,
`otel.SetMeterProvider`. -/
structure OtelGlobals where
  propagatorSet : Bool := false
  tracerProviderSet : Bool := false
  meterProviderSet : Bool := false
deriving DecidableEq, Repr

/-- What `setupOTelSDK` produces: its returned error, the
`shutdownFuncs` the returned `shutdown` closure will see, the cleanups
invoked on the error path, the globals, and the provider configurations
that were built. -/
structure OtelResult where
  err : JErr
  shutdownFuncs : List Cleanup
  invoked : List Nat
  globals : OtelGlobals
  traceCfg : Option TraceProviderCfg
  meterCfg : Option MeterProviderCfg
deriving Repr

/-- Embedding of `setupOTelSDK`, in source order: install the composite
propagator (before anything fallible), build the resource descriptor
(the `os.Hostname` error is ignored, so this step cannot fail), then
build the trace provider, register its shutdown and set it globally,
build the meter provider, register its shutdown and set it globally,
start host metrics, start runtime metrics; each failure goes through
`handleErr`, which joins the failure with the errors of the cleanups
registered so far and empties `shutdownFuncs`. -/
def setupOTelSDK (env : OtelEnv) : OtelResult :=
  let g : OtelGlobals := { propagatorSet := true }
  let tp := newTraceProvider env.debugMode env.traceExporterErr
  if tp.1 ≠ [] then
    let r := handleErr [] tp.1
    { err := r.1, invoked := r.2.1, shutdownFuncs := r.2.2, globals := g,
      traceCfg := none, meterCfg := none }
  else
    let fns := [⟨tracerCleanupId, env.tpShutdownErr⟩]
    let g := { g with tracerProviderSet := true }
    let mp := newMeterProvider env.debugMode env.metricExporterErr
    if mp.1 ≠ [] then
      let r := handleErr fns mp.1
      { err := r.1, invoked := r.2.1, shutdownFuncs := r.2.2, globals := g,
        traceCfg := tp.2, meterCfg := none }
    else
      let fns := fns ++ [⟨meterCleanupId, env.mpShutdownErr⟩]
      let g := { g with meterProviderSet := true }
      if env.hostErr ≠ [] then
        let r := handleErr fns env.hostErr
        { err := r.1, invoked := r.2.1, shutdownFuncs := r.2.2, globals := g,
          traceCfg := tp.2, meterCfg := mp.2 }
      else
        if env.rtErr ≠ [] then
          let r := handleErr fns env.rtErr
          { err := r.1, invoked := r.2.1, shutdownFuncs := r.2.2, globals := g,
            traceCfg := tp.2, meterCfg := mp.2 }
        else
          { err := [], shutdownFuncs := fns, invoked := [], globals := g,
            traceCfg := tp.2, meterCfg := mp.2 }

/-! Embedding of the GORM health-check variant (`src/unnamed/part_004`,
second program): its `initDatabase` and `main`. -/

/-- Outcomes of the fallible calls in the GORM variant `initDatabase`:
`gorm.Open`, attaching the otelgorm plugin, and `AutoMigrate`. -/
structure GormEnv where
  gormOpenErr : Option Nat
  pluginErr : Option Nat
  migrateErr : Option Nat
deriving Repr

/-- Observable state after the GORM variant `initDatabase`: whether the
package-level `db` holds a connection, and the errors it logged with
`log.Printf`. -/
structure GormDbState where
  dbConnected : Bool
  loggedErrors : List Nat
deriving DecidableEq, Repr

/-- Embedding of `initDatabase` from the GORM variant: on `gorm.Open`
failure it logs the error and returns, deliberately continuing without a
database connection; on plugin or migration failure it likewise logs and
returns with `db` set. It never exits the process and never retries. -/
def initDatabase (env : GormEnv) : GormDbState :=
  match env.gormOpenErr with
  | some e => { dbConnected := false, loggedErrors := [e] }
  | none =>
    match env.pluginErr with
    | some e => { dbConnected := true, loggedErrors := [e] }
    | none =>
      match env.migrateErr with
      | some e => { dbConnected := true, loggedErrors := [e] }
      | none => { dbConnected := true, loggedErrors := [] }

/-- What the GORM variant `main` observably does. -/
structure GormMainResult where
  exitedEarly : Bool
  serverStarted : Bool
  db : GormDbState
deriving DecidableEq, Repr

/-- Embedding of the GORM variant `main`: set up OpenTelemetry
(`log.Fatalf`, i.e. early exit, only on that error), initialize the HTTP
client, call `initDatabase` (whatever it logs, execution continues),
set up routes and start the server. -/
def gormMain (oenv : OtelEnv) (genv : GormEnv) : GormMainResult :=
  if (setupOTelSDK oenv).err ≠ [] then
    { exitedEarly := true, serverStarted := false,
      db := { dbConnected := false, loggedErrors := [] } }
  else
    { exitedEarly := false, serverStarted := true, db := initDatabase genv }

/-! Concrete environments used in counterexamples and witnesses. -/

/-- Every external call succeeds; shutdown is triggered by the interrupt
signal; `srv.Shutdown` returns nil. -/
def envAllOk : RunEnv :=
  { mysqlOpenErr := none, mysqlPingErr := none, mysqlCloseErr := none,
    mongoConnectErr := none, mongoPingErr := none, mongoDisconnectErr := none,
    chOpenErr := none, chPingErr := none, kwCloseErr := none, krCloseErr := none,
    winner := .interrupt, srvShutdownErr := none }

/-- Like `envAllOk` but `mongo.Connect` fails with error 5. -/
def envMongoFail : RunEnv := { envAllOk with mongoConnectErr := some 5 }

/-- Like `envAllOk` but the MySQL ping fails with error 3. -/
def envPingFail : RunEnv := { envAllOk with mysqlPingErr := some 3 }

/-- Like `envAllOk` but the deferred `mysqldb.Close()` fails with
error 7. -/
def envCloseErr : RunEnv := { envAllOk with mysqlCloseErr := some 7 }

/-- Telemetry setup in production mode where every step succeeds. -/
def oenvOk : OtelEnv :=
  { debugMode := false, traceExporterErr := [], metricExporterErr := [],
    hostErr := [], rtErr := [], tpShutdownErr := [], mpShutdownErr := [] }

/-- Telemetry setup where the metric exporter constructor fails with
error 7 and the already-registered tracer-provider shutdown returns
error 3 when the rollback invokes it. -/
def oenvMeterFail : OtelEnv :=
  { oenvOk with metricExporterErr := [7], tpShutdownErr := [3] }

/-- GORM variant environment where `gorm.Open` fails with error 9. -/
def genvOpenFail : GormEnv :=
  { gormOpenErr := some 9, pluginErr := none, migrateErr := none }

/-! Helper lemmas. -/

/-- The `errors.Join` fold of the shutdown loop equals appending the
concatenation of the individual errors. -/
theorem foldl_append_cleanup (fns : List Cleanup) (init : JErr) :
    fns.foldl (fun acc c => acc ++ c.err) init =
      init ++ (fns.map (fun c => c.err)).flatten := by
  induction fns generalizing init with
  | nil => simp
  | cons c t ih => simp [ih, List.append_assoc]

/-- The joined shutdown error is empty exactly when every registered
cleanup returned nil. -/
theorem join_errs_isEmpty (fns : List Cleanup) :
    ((fns.map (fun c => c.err)).flatten).isEmpty =
      fns.all (fun c => c.err.isEmpty) := by
  induction fns with
  | nil => rfl
  | cons c t ih =>
    cases hc : c.err with
    | nil => simpa [hc] using ih
    | cons x xs => simp [hc]

/-! Claim C1. -/

/-- Claim C1 counterexample: with every acquisition succeeding and
shutdown triggered by the interrupt signal, the Redis handle is open at
the point shutdown is triggered and is still open after `run` returns,
so it is false that every handle open at the trigger has been closed. -/
theorem run_leaves_redis_open_after_shutdown :
    (run envAllOk).triggered = true ∧
    Handle.redis ∈ (run envAllOk).openAtTrigger ∧
    Handle.redis ∈ (run envAllOk).final.openh := by
  decide

/-- Claim C1 (amended): for every run in which shutdown is triggered
(all acquisitions succeeded), after shutdown returns the MySQL, Mongo,
Kafka writer and Kafka reader handles have been closed, but the Redis
and ClickHouse handles — also open when shutdown was triggered — remain
open, because `run` registers no close for them. -/
theorem run_shutdown_closes_only_deferred_handles (env : RunEnv)
    (h1 : env.mysqlOpenErr = none) (h2 : env.mysqlPingErr = none)
    (h3 : env.mongoConnectErr = none) (h4 : env.mongoPingErr = none)
    (h5 : env.chOpenErr = none) (h6 : env.chPingErr = none) :
    (run env).triggered = true ∧
    (run env).openAtTrigger =
      [Handle.mysql, Handle.redis, Handle.mongo, Handle.clickhouse,
       Handle.kafkaWriter, Handle.kafkaReader] ∧
    (run env).final.openh = [Handle.redis, Handle.clickhouse] ∧
    (run env).final.closedTrace =
      [Handle.kafkaWriter, Handle.kafkaReader, Handle.mongo, Handle.mysql] := by
  obtain ⟨a1, a2, a3, a4, a5, a6, a7, a8, a9, a10, w, se⟩ := env
  simp only at h1 h2 h3 h4 h5 h6
  subst h1 h2 h3 h4 h5 h6
  cases w <;>
    simp [run, att, openH, reg, exitRun, runDefers, runDeferAct, discardClose]

/-- Claim C1 witness: the amended theorem applied to the concrete
all-success interrupt environment. -/
theorem run_shutdown_closes_only_deferred_handles_witness :
    envAllOk.mysqlOpenErr = none ∧ envAllOk.mysqlPingErr = none ∧
    envAllOk.mongoConnectErr = none ∧ envAllOk.mongoPingErr = none ∧
    envAllOk.chOpenErr = none ∧ envAllOk.chPingErr = none ∧
    ((run envAllOk).triggered = true ∧
     (run envAllOk).openAtTrigger =
       [Handle.mysql, Handle.redis, Handle.mongo, Handle.clickhouse,
        Handle.kafkaWriter, Handle.kafkaReader] ∧
     (run envAllOk).final.openh = [Handle.redis, Handle.clickhouse] ∧
     (run envAllOk).final.closedTrace =
       [Handle.kafkaWriter, Handle.kafkaReader, Handle.mongo, Handle.mysql]) :=
  ⟨rfl, rfl, rfl, rfl, rfl, rfl,
   run_shutdown_closes_only_deferred_handles envAllOk rfl rfl rfl rfl rfl rfl⟩

/-! Claim C2. -/

/-- Claim C2: one call of the telemetry `shutdown` closure invokes each
registered cleanup exactly once in registration order and returns the
join of their errors, which is nil exactly when every cleanup returned
nil; the state it leaves behind is empty, so any subsequent call invokes
no cleanup and returns nil. -/
theorem otelShutdown_idempotent (fns : List Cleanup) :
    (otelShutdownCall fns).2.1 = fns.map (fun c => c.id) ∧
    (otelShutdownCall fns).1 = (fns.map (fun c => c.err)).flatten ∧
    (otelShutdownCall fns).1.isEmpty = fns.all (fun c => c.err.isEmpty) ∧
    otelShutdownCall (otelShutdownCall fns).2.2 = ([], [], []) := by
  refine ⟨rfl, ?_, ?_, rfl⟩
  · simpa using foldl_append_cleanup fns []
  · have h := foldl_append_cleanup fns []
    simp only [otelShutdownCall, h, List.nil_append]
    exact join_errs_isEmpty fns

/-! Claim C3. -/

/-- Claim C3 counterexample: when the Mongo connect (acquisition 3)
fails, `run` returns that error but the previously-acquired Redis handle
(acquisition 2) is still open, so it is false that every
previously-acquired handle has been closed. -/
theorem run_acq_failure_leaves_redis_open :
    (run envMongoFail).err = some 5 ∧
    Handle.redis ∈ (run envMongoFail).final.openh := by
  decide

/-- Claim C3 (amended): if the k-th acquisition or its probe fails,
`run` returns that error and no cleanup is registered for resource k
onward; the previously-acquired handles whose deferred closes were
registered (MySQL, then Mongo) are closed in reverse order, but the
previously-acquired Redis handle is never closed, and a handle whose own
probe failed also remains open. -/
theorem run_acq_failure_rollback (env : RunEnv) :
    (env.mysqlOpenErr ≠ none →
      (run env).err = env.mysqlOpenErr ∧ (run env).final.openh = [] ∧
      (run env).final.closedTrace = [] ∧ (run env).defersAtExit = []) ∧
    (env.mysqlOpenErr = none → env.mysqlPingErr ≠ none →
      (run env).err = env.mysqlPingErr ∧
      (run env).final.openh = [Handle.mysql] ∧
      (run env).final.closedTrace = [] ∧ (run env).defersAtExit = []) ∧
    (env.mysqlOpenErr = none → env.mysqlPingErr = none →
      env.mongoConnectErr ≠ none →
      (run env).err = env.mongoConnectErr ∧
      (run env).final.openh = [Handle.redis] ∧
      (run env).final.closedTrace = [Handle.mysql] ∧
      (run env).defersAtExit = [DeferAct.cancelMongoCtx, DeferAct.closeMysql]) ∧
    (env.mysqlOpenErr = none → env.mysqlPingErr = none →
      env.mongoConnectErr = none → env.mongoPingErr ≠ none →
      (run env).err = env.mongoPingErr ∧
      (run env).final.openh = [Handle.redis, Handle.mongo] ∧
      (run env).final.closedTrace = [Handle.mysql] ∧
      (run env).defersAtExit = [DeferAct.cancelMongoCtx, DeferAct.closeMysql]) ∧
    (env.mysqlOpenErr = none → env.mysqlPingErr = none →
      env.mongoConnectErr = none → env.mongoPingErr = none →
      env.chOpenErr ≠ none →
      (run env).err = env.chOpenErr ∧
      (run env).final.openh = [Handle.redis] ∧
      (run env).final.closedTrace = [Handle.mongo, Handle.mysql] ∧
      (run env).defersAtExit =
        [DeferAct.disconnectMongo, DeferAct.cancelMongoCtx, DeferAct.closeMysql]) ∧
    (env.mysqlOpenErr = none → env.mysqlPingErr = none →
      env.mongoConnectErr = none → env.mongoPingErr = none →
      env.chOpenErr = none → env.chPingErr ≠ none →
      (run env).err = env.chPingErr ∧
      (run env).final.openh = [Handle.redis, Handle.clickhouse] ∧
      (run env).final.closedTrace = [Handle.mongo, Handle.mysql] ∧
      (run env).defersAtExit =
        [DeferAct.disconnectMongo, DeferAct.cancelMongoCtx, DeferAct.closeMysql]) := by
  obtain ⟨a1, a2, a3, a4, a5, a6, a7, a8, a9, a10, w, se⟩ := env
  refine ⟨?_, ?_, ?_, ?_, ?_, ?_⟩
  · intro h
    cases a1 with
    | none => exact absurd rfl h
    | some e => simp [run, att, openH, reg, exitRun, runDefers, runDeferAct, discardClose]
  · rintro rfl h
    cases a2 with
    | none => exact absurd rfl h
    | some e => simp [run, att, openH, reg, exitRun, runDefers, runDeferAct, discardClose]
  · rintro rfl rfl h
    cases a4 with
    | none => exact absurd rfl h
    | some e => simp [run, att, openH, reg, exitRun, runDefers, runDeferAct, discardClose]
  · rintro rfl rfl rfl h
    cases a5 with
    | none => exact absurd rfl h
    | some e => simp [run, att, openH, reg, exitRun, runDefers, runDeferAct, discardClose]
  · rintro rfl rfl rfl rfl h
    cases a7 with
    | none => exact absurd rfl h
    | some e => simp [run, att, openH, reg, exitRun, runDefers, runDeferAct, discardClose]
  · rintro rfl rfl rfl rfl rfl h
    cases a8 with
    | none => exact absurd rfl h
    | some e => simp [run, att, openH, reg, exitRun, runDefers, runDeferAct, discardClose]

/-- Claim C3 witness: the amended theorem applied at the concrete
environment where the Mongo connect fails with error 5. -/
theorem run_acq_failure_rollback_witness :
    envMongoFail.mysqlOpenErr = none ∧ envMongoFail.mysqlPingErr = none ∧
    envMongoFail.mongoConnectErr ≠ none ∧
    ((run envMongoFail).err = envMongoFail.mongoConnectErr ∧
     (run envMongoFail).final.openh = [Handle.redis] ∧
     (run envMongoFail).final.closedTrace = [Handle.mysql] ∧
     (run envMongoFail).defersAtExit =
       [DeferAct.cancelMongoCtx, DeferAct.closeMysql]) :=
  ⟨rfl, rfl, by decide,
   (run_acq_failure_rollback envMongoFail).2.2.1 rfl rfl (by decide)⟩

/-! Claim C4. -/

/-- Claim C4: for every construction failure inside `setupOTelSDK`
(trace provider, meter provider, host metrics, runtime metrics), every
shutdown func registered for the earlier steps is invoked before the
function returns, `shutdownFuncs` is left empty, and the returned error
is the join of the construction error with the errors of those
cleanups. -/
theorem setupOTelSDK_failure_rollback (env : OtelEnv) :
    (env.traceExporterErr ≠ [] →
      (setupOTelSDK env).err = env.traceExporterErr ∧
      (setupOTelSDK env).invoked = [] ∧
      (setupOTelSDK env).shutdownFuncs = []) ∧
    (env.traceExporterErr = [] → env.metricExporterErr ≠ [] →
      (setupOTelSDK env).err = env.metricExporterErr ++ env.tpShutdownErr ∧
      (setupOTelSDK env).invoked = [tracerCleanupId] ∧
      (setupOTelSDK env).shutdownFuncs = []) ∧
    (env.traceExporterErr = [] → env.metricExporterErr = [] → env.hostErr ≠ [] →
      (setupOTelSDK env).err =
        env.hostErr ++ env.tpShutdownErr ++ env.mpShutdownErr ∧
      (setupOTelSDK env).invoked = [tracerCleanupId, meterCleanupId] ∧
      (setupOTelSDK env).shutdownFuncs = []) ∧
    (env.traceExporterErr = [] → env.metricExporterErr = [] → env.hostErr = [] →
      env.rtErr ≠ [] →
      (setupOTelSDK env).err =
        env.rtErr ++ env.tpShutdownErr ++ env.mpShutdownErr ∧
      (setupOTelSDK env).invoked = [tracerCleanupId, meterCleanupId] ∧
      (setupOTelSDK env).shutdownFuncs = []) := by
  obtain ⟨d, te, me, he, re, tse, mse⟩ := env
  refine ⟨?_, ?_, ?_, ?_⟩
  · intro h
    simp [setupOTelSDK, newTraceProvider, newMeterProvider, handleErr,
      otelShutdownCall, h]
  · rintro rfl h
    simp [setupOTelSDK, newTraceProvider, newMeterProvider, handleErr,
      otelShutdownCall, h]
  · rintro rfl rfl h
    simp [setupOTelSDK, newTraceProvider, newMeterProvider, handleErr,
      otelShutdownCall, h]
  · rintro rfl rfl rfl h
    simp [setupOTelSDK, newTraceProvider, newMeterProvider, handleErr,
      otelShutdownCall, h]

/-- Claim C4 witness: the theorem applied at the concrete environment
where the metric exporter constructor fails with error 7 and the rolled
back tracer-provider shutdown returns error 3. -/
theorem setupOTelSDK_failure_rollback_witness :
    oenvMeterFail.traceExporterErr = [] ∧
    oenvMeterFail.metricExporterErr ≠ [] ∧
    ((setupOTelSDK oenvMeterFail).err =
        oenvMeterFail.metricExporterErr ++ oenvMeterFail.tpShutdownErr ∧
     (setupOTelSDK oenvMeterFail).invoked = [tracerCleanupId] ∧
     (setupOTelSDK oenvMeterFail).shutdownFuncs = []) :=
  ⟨rfl, by decide,
   (setupOTelSDK_failure_rollback oenvMeterFail).2.1 rfl (by decide)⟩

/-! Claim C5. -/

/-- Claim C5 counterexample: shutdown is triggered by the interrupt, the
deferred `mysqldb.Close()` fails with error 7, and that close does
execute — yet `run` returns nil: the close error is discarded, not
joined into the returned value, so it is false that no shutdown-step
error is dropped. -/
theorem run_drops_mysql_close_error :
    Handle.mysql ∈ (run envCloseErr).final.closedTrace ∧
    (run envCloseErr).final.discarded = [7] ∧
    (run envCloseErr).err = none := by
  decide

/-- Claim C5 (amended): whenever shutdown is triggered, the teardown
steps all execute regardless of earlier errors — `srv.Shutdown` in the
interrupt branch, and the deferred closes of the Kafka writer/reader,
Mongo, and MySQL handles in every branch — but the errors are not
joined: `run` returns only the error of the winning `select` branch,
and every error of a deferred close is discarded. (Telemetry teardown
is not part of `run` in this variant; `tracer.Stop` runs in `main`.) -/
theorem run_teardown_all_steps_error_dropped (env : RunEnv)
    (h1 : env.mysqlOpenErr = none) (h2 : env.mysqlPingErr = none)
    (h3 : env.mongoConnectErr = none) (h4 : env.mongoPingErr = none)
    (h5 : env.chOpenErr = none) (h6 : env.chPingErr = none) :
    (run env).final.closedTrace =
      [Handle.kafkaWriter, Handle.kafkaReader, Handle.mongo, Handle.mysql] ∧
    (∀ e, env.winner = .listener e →
      (run env).err = e ∧ (run env).final.srvShutdownCalled = false) ∧
    (env.winner = .interrupt →
      (run env).err = env.srvShutdownErr ∧
      (run env).final.srvShutdownCalled = true) ∧
    (run env).final.discarded =
      env.kwCloseErr.toList ++ env.krCloseErr.toList ++
        env.mongoDisconnectErr.toList ++ env.mysqlCloseErr.toList := by
  obtain ⟨a1, a2, a3, a4, a5, a6, a7, a8, a9, a10, w, se⟩ := env
  simp only at h1 h2 h3 h4 h5 h6
  subst h1 h2 h3 h4 h5 h6
  cases w <;>
    simp [run, att, openH, reg, exitRun, runDefers, runDeferAct, discardClose]

/-- Claim C5 witness: the amended theorem applied at the concrete
environment where the deferred MySQL close fails with error 7. -/
theorem run_teardown_all_steps_error_dropped_witness :
    envCloseErr.mysqlOpenErr = none ∧ envCloseErr.mysqlPingErr = none ∧
    envCloseErr.mongoConnectErr = none ∧ envCloseErr.mongoPingErr = none ∧
    envCloseErr.chOpenErr = none ∧ envCloseErr.chPingErr = none ∧
    ((run envCloseErr).final.closedTrace =
       [Handle.kafkaWriter, Handle.kafkaReader, Handle.mongo, Handle.mysql] ∧
     (∀ e, envCloseErr.winner = .listener e →
       (run envCloseErr).err = e ∧
       (run envCloseErr).final.srvShutdownCalled = false) ∧
     (envCloseErr.winner = .interrupt →
       (run envCloseErr).err = envCloseErr.srvShutdownErr ∧
       (run envCloseErr).final.srvShutdownCalled = true) ∧
     (run envCloseErr).final.discarded =
       envCloseErr.kwCloseErr.toList ++ envCloseErr.krCloseErr.toList ++
         envCloseErr.mongoDisconnectErr.toList ++
         envCloseErr.mysqlCloseErr.toList) :=
  ⟨rfl, rfl, rfl, rfl, rfl, rfl,
   run_teardown_all_steps_error_dropped envCloseErr rfl rfl rfl rfl rfl rfl⟩

/-! Claim C6. -/

/-- Claim C6 counterexample: the MySQL connection opens but its ping
fails with error 3; `run` returns that error, yet the just-opened MySQL
handle is still open and nothing was closed, so it is false that the
just-opened connection is closed before the probe error is returned. -/
theorem run_probe_failure_leaks_connection :
    (run envPingFail).err = some 3 ∧
    Handle.mysql ∈ (run envPingFail).final.openh ∧
    (run envPingFail).final.closedTrace = [] := by
  decide

/-- Claim C6 (amended): when a connection opens but its immediate probe
fails, `run` returns the probe error and registers no cleanup for that
resource — the deferred close is only registered after a successful
probe — but it does not close the just-opened connection, which remains
open when `run` returns. -/
theorem run_probe_failure_no_close_no_cleanup (env : RunEnv) :
    (env.mysqlOpenErr = none → env.mysqlPingErr ≠ none →
      (run env).err = env.mysqlPingErr ∧
      Handle.mysql ∈ (run env).final.openh ∧
      (run env).final.closedTrace = [] ∧
      (run env).defersAtExit = []) ∧
    (env.mysqlOpenErr = none → env.mysqlPingErr = none →
      env.mongoConnectErr = none → env.mongoPingErr ≠ none →
      (run env).err = env.mongoPingErr ∧
      Handle.mongo ∈ (run env).final.openh ∧
      DeferAct.disconnectMongo ∉ (run env).defersAtExit) ∧
    (env.mysqlOpenErr = none → env.mysqlPingErr = none →
      env.mongoConnectErr = none → env.mongoPingErr = none →
      env.chOpenErr = none → env.chPingErr ≠ none →
      (run env).err = env.chPingErr ∧
      Handle.clickhouse ∈ (run env).final.openh ∧
      (run env).defersAtExit =
        [DeferAct.disconnectMongo, DeferAct.cancelMongoCtx,
         DeferAct.closeMysql]) := by
  obtain ⟨a1, a2, a3, a4, a5, a6, a7, a8, a9, a10, w, se⟩ := env
  refine ⟨?_, ?_, ?_⟩
  · rintro rfl h
    cases a2 with
    | none => exact absurd rfl h
    | some e => simp [run, att, openH, reg, exitRun, runDefers, runDeferAct, discardClose]
  · rintro rfl rfl rfl h
    cases a5 with
    | none => exact absurd rfl h
    | some e => simp [run, att, openH, reg, exitRun, runDefers, runDeferAct, discardClose]
  · rintro rfl rfl rfl rfl rfl h
    cases a8 with
    | none => exact absurd rfl h
    | some e => simp [run, att, openH, reg, exitRun, runDefers, runDeferAct, discardClose]

/-- Claim C6 witness: the amended theorem applied at the concrete
environment where the MySQL ping fails with error 3. -/
theorem run_probe_failure_no_close_no_cleanup_witness :
    envPingFail.mysqlOpenErr = none ∧ envPingFail.mysqlPingErr ≠ none ∧
    ((run envPingFail).err = envPingFail.mysqlPingErr ∧
     Handle.mysql ∈ (run envPingFail).final.openh ∧
     (run envPingFail).final.closedTrace = [] ∧
     (run envPingFail).defersAtExit = []) :=
  ⟨rfl, by decide,
   (run_probe_failure_no_close_no_cleanup envPingFail).1 rfl (by decide)⟩

/-! Claim C7. -/

/-- Claim C7: modelling the `select` in `run` as a race with a single
winner (Go executes exactly one `select` case, and both cases return
immediately), exactly one wait branch executes in every run that reaches
the shutdown race: one shutdown cascade runs, each handle is closed at
most once, and the returned error is exactly the error of the winning
branch — the listener error, or the `srv.Shutdown` result after an
interrupt. -/
theorem run_shutdown_race_single_winner (env : RunEnv)
    (h1 : env.mysqlOpenErr = none) (h2 : env.mysqlPingErr = none)
    (h3 : env.mongoConnectErr = none) (h4 : env.mongoPingErr = none)
    (h5 : env.chOpenErr = none) (h6 : env.chPingErr = none) :
    (run env).final.branchesRun = 1 ∧
    (run env).final.closedTrace.Nodup ∧
    (∀ e, env.winner = .listener e →
      (run env).err = e ∧ (run env).final.srvShutdownCalled = false) ∧
    (env.winner = .interrupt →
      (run env).err = env.srvShutdownErr ∧
      (run env).final.srvShutdownCalled = true) := by
  obtain ⟨a1, a2, a3, a4, a5, a6, a7, a8, a9, a10, w, se⟩ := env
  simp only at h1 h2 h3 h4 h5 h6
  subst h1 h2 h3 h4 h5 h6
  cases w <;>
    simp [run, att, openH, reg, exitRun, runDefers, runDeferAct, discardClose]

/-- Claim C7 witness: the theorem applied at the concrete all-success
environment where the interrupt wins the race. -/
theorem run_shutdown_race_single_winner_witness :
    envAllOk.mysqlOpenErr = none ∧ envAllOk.mysqlPingErr = none ∧
    envAllOk.mongoConnectErr = none ∧ envAllOk.mongoPingErr = none ∧
    envAllOk.chOpenErr = none ∧ envAllOk.chPingErr = none ∧
    ((run envAllOk).final.branchesRun = 1 ∧
     (run envAllOk).final.closedTrace.Nodup ∧
     (∀ e, envAllOk.winner = .listener e →
       (run envAllOk).err = e ∧
       (run envAllOk).final.srvShutdownCalled = false) ∧
     (envAllOk.winner = .interrupt →
       (run envAllOk).err = envAllOk.srvShutdownErr ∧
       (run envAllOk).final.srvShutdownCalled = true)) :=
  ⟨rfl, rfl, rfl, rfl, rfl, rfl,
   run_shutdown_race_single_winner envAllOk rfl rfl rfl rfl rfl rfl⟩

/-! Claim C8. -/

/-- Claim C8 counterexample: in the GORM health-check variant, a
`gorm.Open` failure (error 9) during `initDatabase` is logged and the
process deliberately continues — the server still starts and the process
does not exit — so it is false that every acquisition error at startup
is fatal to startup across this repository. -/
theorem gorm_db_failure_not_fatal :
    (gormMain oenvOk genvOpenFail).exitedEarly = false ∧
    (gormMain oenvOk genvOpenFail).serverStarted = true ∧
    (gormMain oenvOk genvOpenFail).db.dbConnected = false ∧
    (gormMain oenvOk genvOpenFail).db.loggedErrors = [9] := by
  decide

/-- Claim C8 (amended): in the orchestrator variant (`main.go`), every
acquisition error is fatal to startup — `run` aborts and `main` logs the
cause via `log.Fatalln` and exits with status 1 — and no acquisition is
ever attempted twice; in the GORM health-check variant, however, a
database acquisition failure in `initDatabase` is logged and the process
deliberately continues to serve without a database. -/
theorem startup_failure_fatal_in_orchestrator (env : RunEnv)
    (genv : GormEnv) (oenv : OtelEnv) :
    ((run env).err ≠ none →
      (goMain env).exitCode = 1 ∧ (goMain env).logged = (run env).err ∧
      (goMain env).tracerStopped = false) ∧
    ((run env).err = none → (goMain env).exitCode = 0) ∧
    (run env).final.attempts.Nodup ∧
    ((setupOTelSDK oenv).err = [] →
      (gormMain oenv genv).serverStarted = true ∧
      (gormMain oenv genv).db = initDatabase genv) := by
  refine ⟨?_, ?_, ?_, ?_⟩
  · intro h
    cases hre : (run env).err with
    | none => exact absurd hre h
    | some e => simp [goMain, hre]
  · intro h
    simp [goMain, h]
  · obtain ⟨a1, a2, a3, a4, a5, a6, a7, a8, a9, a10, w, se⟩ := env
    cases a1 <;> cases a2 <;> cases a4 <;> cases a5 <;> cases a7 <;>
      cases a8 <;> cases w <;>
      simp [run, att, openH, reg, exitRun, runDefers, runDeferAct, discardClose]
  · intro h
    simp [gormMain, h]

/-- Claim C8 witness: the amended theorem applied at the concrete
environments where the Mongo connect fails in the orchestrator and
`gorm.Open` fails in the GORM variant. -/
theorem startup_failure_fatal_in_orchestrator_witness :
    (run envMongoFail).err ≠ none ∧ (setupOTelSDK oenvOk).err = [] ∧
    ((goMain envMongoFail).exitCode = 1 ∧
     (goMain envMongoFail).logged = (run envMongoFail).err ∧
     (goMain envMongoFail).tracerStopped = false) ∧
    ((gormMain oenvOk genvOpenFail).serverStarted = true ∧
     (gormMain oenvOk genvOpenFail).db = initDatabase genvOpenFail) :=
  ⟨by decide, by decide,
   (startup_failure_fatal_in_orchestrator envMongoFail genvOpenFail oenvOk).1
     (by decide),
   (startup_failure_fatal_in_orchestrator envMongoFail genvOpenFail oenvOk).2.2.2
     (by decide)⟩

/-! Claim C9. -/

/-- Claim C9: in debug mode (`OTEL_LOG_LEVEL` equal to `debug`) the
constructors build pretty-printed stdout trace and metric exporters and
set the periodic reader to a 10-second interval; otherwise they build
OTLP HTTP exporters and leave the reader at the longer 1-minute default;
in both modes the trace exporter is wrapped in a batching span processor
and the metric exporter feeds a periodic reader. -/
theorem telemetry_exporter_mode_selection :
    newTraceProvider true [] =
      ([], some { exporter := .stdoutPretty, batcher := true }) ∧
    newMeterProvider true [] =
      ([], some { exporter := .stdoutPretty, periodicReader := true,
                  intervalSeconds := 10 }) ∧
    newTraceProvider false [] =
      ([], some { exporter := .otlpHttp, batcher := true }) ∧
    newMeterProvider false [] =
      ([], some { exporter := .otlpHttp, periodicReader := true,
                  intervalSeconds := defaultMetricIntervalSeconds }) ∧
    10 < defaultMetricIntervalSeconds := by
  decide

/-! Claim C10. -/

/-- Claim C10: `setupOTelSDK` installs the composite propagator before
any fallible step, so the propagator global is set on every execution,
error or not; and whenever the trace-provider step succeeded, the global
tracer provider is set as well, even when a later step fails — the
error-path rollback shuts components down but never restores the prior
global telemetry state. -/
theorem setupOTelSDK_globals_survive_failure (env : OtelEnv) :
    (setupOTelSDK env).globals.propagatorSet = true ∧
    (env.traceExporterErr = [] →
      (setupOTelSDK env).globals.tracerProviderSet = true) := by
  obtain ⟨d, te, me, he, re, tse, mse⟩ := env
  constructor
  · cases te <;> cases me <;> cases he <;> cases re <;>
      simp [setupOTelSDK, newTraceProvider, newMeterProvider, handleErr,
        otelShutdownCall]
  · rintro rfl
    cases me <;> cases he <;> cases re <;>
      simp [setupOTelSDK, newTraceProvider, newMeterProvider, handleErr,
        otelShutdownCall]

/-- Claim C10 witness: the theorem applied at the concrete environment
where the meter-provider step fails after the trace provider was
installed. -/
theorem setupOTelSDK_globals_survive_failure_witness :
    oenvMeterFail.traceExporterErr = [] ∧
    (setupOTelSDK oenvMeterFail).err ≠ [] ∧
    (setupOTelSDK oenvMeterFail).globals.propagatorSet = true ∧
    (setupOTelSDK oenvMeterFail).globals.tracerProviderSet = true :=
  ⟨rfl, by decide,
   (setupOTelSDK_globals_survive_failure oenvMeterFail).1,
   (setupOTelSDK_globals_survive_failure oenvMeterFail).2 rfl⟩

end SampleAppGin
